import Mathlib

/-!
Shallow embedding of the `FeedFormulationClient` from `src/feed-client.ts` of
the ration-smart-mcp-server repository, together with theorems settling the
frozen claims about it.

Modelling conventions:
* JSON values flowing to/from the backend are modelled by the inductive `Json`
  (numbers as rationals; `undefined` and `null` are both modelled by
  `Json.null`, which is adequate because the client only ever distinguishes
  them through truthiness and `||`/`?.`, which treat them identically).
* JavaScript truthiness is modelled by `jsTruthy` (for JSON values) and
  `optStrTruthy` / `optIntTruthy` (for optional string / number parameters,
  where `none` models `undefined`).
* The network is modelled by a script `List FetchOutcome`: each `fetch` call
  consumes the next entry (a `Response`, or a rejection `netError`); an
  exhausted script behaves as a rejection.  Every attempted outbound request
  is recorded, in order, in a trace `List Request`.
* `Date.now()` is modelled by an explicit `now : Nat` parameter.
* A thrown `Error` is modelled as `Except.error` carrying the message string.
-/

namespace RationSmart

/-- Model of a JSON value (JS runtime value reaching the client).  Arrays and
objects are encoded as cons-chains inside the one inductive so that decidable
equality is derivable: `arrCons h t` is the array with head `h` and tail `t`,
`objCons k v t` the object with first field `k ↦ v` and remaining fields `t`. -/
inductive Json where
  | null : Json
  | bool (b : Bool) : Json
  | num (n : Rat) : Json
  | str (s : String) : Json
  | arrNil : Json
  | arrCons (head tail : Json) : Json
  | objNil : Json
  | objCons (key : String) (value tail : Json) : Json
deriving Repr, DecidableEq

/-- JavaScript truthiness of a JSON value (arrays and objects are truthy). -/
def jsTruthy : Json → Bool
  | .null => false
  | .bool b => b
  | .num n => !(n == 0)
  | .str s => !(s == "")
  | _ => true

/-- Property access `v.k`: field lookup on an object, `undefined` (here
`Json.null`) on anything else or when the key is absent. -/
def jsGet : Json → String → Json
  | .objCons k v t, key => if k == key then v else jsGet t key
  | _, _ => .null

/-- The JS key-presence test (the `in` operator, as guarded in `searchFeeds`
by the null and typeof checks): true only for an object that has the key.
Arrays have no string field keys, so they answer false. -/
def jsHasKey : Json → String → Bool
  | .objCons k _ t, key => k == key || jsHasKey t key
  | _, _ => false

/-- Whether a JSON value is an array. -/
def Json.isArr : Json → Bool
  | .arrNil => true
  | .arrCons _ _ => true
  | _ => false

/-- Build a JSON array from a list of values. -/
def Json.ofList (l : List Json) : Json := l.foldr .arrCons .arrNil

/-- Truthiness of an optional string parameter (`undefined` and `""` falsy). -/
def optStrTruthy : Option String → Bool
  | none => false
  | some s => !(s == "")

/-- Truthiness of an optional number parameter (`undefined` and `0` falsy). -/
def optIntTruthy : Option Int → Bool
  | none => false
  | some n => !(n == 0)

/-- Model of the `CattleInfo` interface from feed-client.ts. -/
structure CattleInfo where
  body_weight : Rat
  breed : String
  lactating : Bool
  milk_production : Rat
  days_in_milk : Rat
  parity : Rat
  days_of_pregnancy : Rat
  tp_milk : Rat
  fat_milk : Rat
  temperature : Rat
  topography : String
  distance : Rat
  calving_interval : Rat
  bw_gain : Option Rat := none
  bc_score : Option Rat := none
deriving Repr, DecidableEq

/-- Model of the `FeedWithPrice` interface from feed-client.ts. -/
structure FeedWithPrice where
  feed_id : String
  price_per_kg : Rat
deriving Repr, DecidableEq

/-- Model of the `FeedEvaluationItem` interface from feed-client.ts. -/
structure FeedEvaluationItem where
  feed_id : String
  quantity_as_fed : Rat
  price_per_kg : Rat
deriving Repr, DecidableEq

/-- Model of the `DietRecommendationRequest` interface from feed-client.ts. -/
structure DietRecommendationRequest where
  simulation_id : String
  user_id : Json
  cattle_info : CattleInfo
  feed_selection : List FeedWithPrice
  country_id : Json
deriving Repr, DecidableEq

/-- Model of the `DietEvaluationRequest` interface from feed-client.ts. -/
structure DietEvaluationRequest where
  simulation_id : String
  user_id : Json
  country_id : Json
  currency : Json
  cattle_info : CattleInfo
  feed_evaluation : List FeedEvaluationItem
deriving Repr, DecidableEq

/-- One outbound request, identified by endpoint and payload. -/
inductive Request where
  | login (email pin : String)
  | getCountries
  | getFeed (feedId : String)
  | searchFeedsReq (queryString : String)
  | dietRecommendation (body : DietRecommendationRequest)
  | dietEvaluation (body : DietEvaluationRequest)
deriving Repr, DecidableEq

/-- Whether a request targets the diet-evaluation endpoint. -/
def Request.isDietEvaluation : Request → Bool
  | .dietEvaluation _ => true
  | _ => false

/-- Whether a request targets one of the two diet endpoints. -/
def Request.isDietDispatch : Request → Bool
  | .dietRecommendation _ => true
  | .dietEvaluation _ => true
  | _ => false

/-- One HTTP response from the backend. -/
structure Response where
  status : Nat
  statusText : String
  jsonBody : Json
  textBody : String
deriving Repr, DecidableEq

/-- Accessor `response.ok`: status in the 2xx success range. -/
def Response.ok (r : Response) : Bool := 200 ≤ r.status && r.status < 300

/-- Outcome of one `fetch`: a response, or a rejection (network error). -/
inductive FetchOutcome where
  | success (r : Response)
  | netError (msg : String)
deriving Repr, DecidableEq

/-- The mutable fields of a `FeedFormulationClient` instance.  The three
cached fields hold JSON runtime values (`Json.null` models the initial
`null`).  `organizationId` is never read or written after construction and is
omitted. -/
structure ClientState where
  baseUrl : String
  apiKey : Option String
  userEmail : Option String
  userPin : Option String
  cachedUserId : Json
  cachedCountryId : Json
  cachedCurrency : Json
deriving Repr, DecidableEq

/-- Message of the error thrown by the constructor with no usable credentials. -/
def missingCredentialsMsg : String := "Either API key or email+PIN must be provided"

/-- The `FeedFormulationClient` constructor: prefer a (truthy) API key, else a
(truthy) email+PIN pair, else throw. -/
def mkClient (baseUrl : String) (apiKey userEmail userPin : Option String) :
    Except String ClientState :=
  if optStrTruthy apiKey then
    .ok ⟨baseUrl, apiKey, none, none, .null, .null, .null⟩
  else if optStrTruthy userEmail && optStrTruthy userPin then
    .ok ⟨baseUrl, none, userEmail, userPin, .null, .null, .null⟩
  else
    .error missingCredentialsMsg

/-- Execution state: client fields, remaining backend script, and the trace of
outbound requests attempted so far (in order). -/
structure World where
  cs : ClientState
  script : List FetchOutcome
  trace : List Request
deriving Repr, DecidableEq

/-- One `fetch`: record the request, consume the next scripted outcome.  An
exhausted script behaves as a rejected fetch. -/
def fetchStep (req : Request) (w : World) : Except String Response × World :=
  match w.script with
  | [] => (.error "network error", { w with trace := w.trace ++ [req] })
  | .success r :: rest =>
      (.ok r, { w with script := rest, trace := w.trace ++ [req] })
  | .netError m :: rest =>
      (.error m, { w with script := rest, trace := w.trace ++ [req] })

/-- Operation `authenticate()`: cache hit returns the cached user id; otherwise one
login POST; on success the three cache fields are written and the user id
returned; every failure (rejection, non-2xx status, falsy `success` flag or
`user` object) is rethrown wrapped in `Failed to authenticate: `. -/
def authenticate (w : World) : Except String Json × World :=
  if jsTruthy w.cs.cachedUserId then
    (.ok w.cs.cachedUserId, w)
  else if !(optStrTruthy w.cs.userEmail && optStrTruthy w.cs.userPin) then
    (.error "Email and PIN required for authentication", w)
  else
    match fetchStep (.login (w.cs.userEmail.getD "") (w.cs.userPin.getD "")) w with
    | (.error e, w') => (.error ("Failed to authenticate: " ++ e), w')
    | (.ok r, w') =>
      if !r.ok then
        (.error ("Failed to authenticate: Authentication failed: " ++
          toString r.status ++ " " ++ r.statusText), w')
      else
        let data := r.jsonBody
        if !jsTruthy (jsGet data "success") || !jsTruthy (jsGet data "user") then
          (.error "Failed to authenticate: Invalid authentication response", w')
        else
          let user := jsGet data "user"
          let uid := jsGet user "id"
          let currency := jsGet (jsGet user "country") "currency"
          (.ok uid,
            { w' with cs := { w'.cs with
                cachedUserId := uid,
                cachedCountryId := jsGet user "country_id",
                cachedCurrency := if jsTruthy currency then currency else .str "USD" } })

/-- Operation `getUserId()`: rejected under API-key auth, else authenticate. -/
def getUserId (w : World) : Except String Json × World :=
  if optStrTruthy w.cs.apiKey then
    (.error "User ID not available with API key authentication. Use organization context instead.", w)
  else
    authenticate w

/-- Operation `getCountryId()`: rejected under API-key auth, else authenticate and
return the cached country id (throwing if it is falsy). -/
def getCountryId (w : World) : Except String Json × World :=
  if optStrTruthy w.cs.apiKey then
    (.error "Country ID not available with API key authentication. Specify country_id in requests.", w)
  else
    match authenticate w with
    | (.error e, w') => (.error e, w')
    | (.ok _, w') =>
      if !jsTruthy w'.cs.cachedCountryId then
        (.error "Country ID not available", w')
      else
        (.ok w'.cs.cachedCountryId, w')

/-- Operation `getCurrency()`: fixed "USD" under API-key auth, else authenticate and
return the cached currency with "USD" fallback. -/
def getCurrency (w : World) : Except String Json × World :=
  if optStrTruthy w.cs.apiKey then
    (.ok (.str "USD"), w)
  else
    match authenticate w with
    | (.error e, w') => (.error e, w')
    | (.ok _, w') =>
      (.ok (if jsTruthy w'.cs.cachedCurrency then w'.cs.cachedCurrency else .str "USD"), w')

/-- Operation `getFeedById(feedId)`: one GET; non-2xx throws
`Failed to get feed: <status>`; success returns the parsed body. -/
def getFeedById (feedId : String) (w : World) : Except String Json × World :=
  match fetchStep (.getFeed feedId) w with
  | (.error e, w') => (.error e, w')
  | (.ok r, w') =>
    if !r.ok then
      (.error ("Failed to get feed: " ++ toString r.status), w')
    else
      (.ok r.jsonBody, w')

/-- Parameter object of `searchFeeds`. -/
structure SearchParams where
  country_id : Option String := none
  feed_type : Option String := none
  feed_category : Option String := none
  limit : Option Int := none
  offset : Option Int := none
deriving Repr, DecidableEq

/-- Query string assembled by `searchFeeds` (each parameter appended only when
truthy). -/
def buildQuery (p : SearchParams) : String :=
  let pairs : List (String × String) :=
    (if optStrTruthy p.country_id then [("country_id", p.country_id.getD "")] else []) ++
    (if optStrTruthy p.feed_type then [("feed_type", p.feed_type.getD "")] else []) ++
    (if optStrTruthy p.feed_category then [("feed_category", p.feed_category.getD "")] else []) ++
    (if optIntTruthy p.limit then [("limit", toString (p.limit.getD 0))] else []) ++
    (if optIntTruthy p.offset then [("offset", toString (p.offset.getD 0))] else [])
  String.intercalate "&" (pairs.map (fun q => q.1 ++ "=" ++ q.2))

/-- Operation `searchFeeds(params)`: one GET; non-2xx throws; a success body that is an
object with a `feeds` key yields that field, any other body is returned
as-is. -/
def searchFeeds (p : SearchParams) (w : World) : Except String Json × World :=
  match fetchStep (.searchFeedsReq (buildQuery p)) w with
  | (.error e, w') => (.error e, w')
  | (.ok r, w') =>
    if !r.ok then
      (.error ("Failed to search feeds: " ++ toString r.status), w')
    else if jsHasKey r.jsonBody "feeds" then
      (.ok (jsGet r.jsonBody "feeds"), w')
    else
      (.ok r.jsonBody, w')

/-- Operation `detectCountryFromFeeds(feedIds)`: null on empty input with no fetch;
otherwise fetch the first feed and return its truthy `fd_country_id`, with
every lookup failure swallowed to null. -/
def detectCountryFromFeeds (feedIds : List String) (w : World) : Option Json × World :=
  match feedIds with
  | [] => (none, w)
  | fid :: _ =>
    match getFeedById fid w with
    | (.error _, w') => (none, w')
    | (.ok feed, w') =>
      let c := jsGet feed "fd_country_id"
      (if jsTruthy c then some c else none, w')

/-- Operation `getServiceAccountUserId()`: the fixed placeholder service-account UUID. -/
def serviceAccountId : String := "00000000-0000-0000-0000-000000000000"

/-- Message of the error thrown when no country id is supplied or detected. -/
def missingCountryMsg : String :=
  "country_id is required. Either provide it explicitly or ensure feeds have country_id set."

/-- Final POST of `getDietRecommendation`: build the body and dispatch. -/
def dispatchRecommendation (cattleInfo : CattleInfo) (feedSelection : List FeedWithPrice)
    (countryIdToUse userIdToUse : Json) (now : Nat) (w : World) :
    Except String Json × World :=
  let req : DietRecommendationRequest :=
    { simulation_id := "sim-" ++ toString now
      user_id := userIdToUse
      cattle_info := cattleInfo
      feed_selection := feedSelection
      country_id := countryIdToUse }
  match fetchStep (.dietRecommendation req) w with
  | (.error e, w') => (.error e, w')
  | (.ok r, w') =>
    if !r.ok then
      (.error ("Diet recommendation failed: " ++ toString r.status ++ " - " ++ r.textBody), w')
    else
      (.ok r.jsonBody, w')

/-- Operation `getDietRecommendation(cattleInfo, feedSelection, countryId?, userId?)`. -/
def getDietRecommendation (cattleInfo : CattleInfo) (feedSelection : List FeedWithPrice)
    (countryId userId : Option String) (now : Nat) (w : World) :
    Except String Json × World :=
  if optStrTruthy w.cs.apiKey then
    let resolved : Except String Json × World :=
      if !optStrTruthy countryId then
        match detectCountryFromFeeds (feedSelection.map (·.feed_id)) w with
        | (none, w') => (.error missingCountryMsg, w')
        | (some c, w') => (.ok c, w')
      else
        (.ok (.str (countryId.getD "")), w)
    match resolved with
    | (.error e, w') => (.error e, w')
    | (.ok countryIdToUse, w') =>
      let userIdToUse : Json :=
        if optStrTruthy userId then .str (userId.getD "") else .str serviceAccountId
      dispatchRecommendation cattleInfo feedSelection countryIdToUse userIdToUse now w'
  else
    match getUserId w with
    | (.error e, w') => (.error e, w')
    | (.ok userIdToUse, w') =>
      let resolved : Except String Json × World :=
        if optStrTruthy countryId then
          (.ok (.str (countryId.getD "")), w')
        else
          getCountryId w'
      match resolved with
      | (.error e, w'') => (.error e, w'')
      | (.ok countryIdToUse, w'') =>
        dispatchRecommendation cattleInfo feedSelection countryIdToUse userIdToUse now w''

/-- Final POST of `evaluateDiet`: build the body and dispatch. -/
def dispatchEvaluation (cattleInfo : CattleInfo) (feedEvaluation : List FeedEvaluationItem)
    (countryIdToUse currencyToUse userIdToUse : Json) (now : Nat) (w : World) :
    Except String Json × World :=
  let req : DietEvaluationRequest :=
    { simulation_id := "eval-" ++ toString now
      user_id := userIdToUse
      country_id := countryIdToUse
      currency := currencyToUse
      cattle_info := cattleInfo
      feed_evaluation := feedEvaluation }
  match fetchStep (.dietEvaluation req) w with
  | (.error e, w') => (.error e, w')
  | (.ok r, w') =>
    if !r.ok then
      (.error ("Diet evaluation failed: " ++ toString r.status ++ " - " ++ r.textBody), w')
    else
      (.ok r.jsonBody, w')

/-- Operation `evaluateDiet(cattleInfo, feedEvaluation, countryId?, currency?, userId?)`. -/
def evaluateDiet (cattleInfo : CattleInfo) (feedEvaluation : List FeedEvaluationItem)
    (countryId currency userId : Option String) (now : Nat) (w : World) :
    Except String Json × World :=
  if optStrTruthy w.cs.apiKey then
    let resolved : Except String Json × World :=
      if !optStrTruthy countryId then
        match detectCountryFromFeeds (feedEvaluation.map (·.feed_id)) w with
        | (none, w') => (.error missingCountryMsg, w')
        | (some c, w') => (.ok c, w')
      else
        (.ok (.str (countryId.getD "")), w)
    match resolved with
    | (.error e, w') => (.error e, w')
    | (.ok countryIdToUse, w') =>
      let userIdToUse : Json :=
        if optStrTruthy userId then .str (userId.getD "") else .str serviceAccountId
      let currencyToUse : Json :=
        if optStrTruthy currency then .str (currency.getD "") else .str "USD"
      dispatchEvaluation cattleInfo feedEvaluation countryIdToUse currencyToUse userIdToUse now w'
  else
    match getUserId w with
    | (.error e, w') => (.error e, w')
    | (.ok userIdToUse, w') =>
      let resolvedCountry : Except String Json × World :=
        if optStrTruthy countryId then
          (.ok (.str (countryId.getD "")), w')
        else
          getCountryId w'
      match resolvedCountry with
      | (.error e, w'') => (.error e, w'')
      | (.ok countryIdToUse, w'') =>
        let resolvedCurrency : Except String Json × World :=
          if optStrTruthy currency then
            (.ok (.str (currency.getD "")), w'')
          else
            getCurrency w''
        match resolvedCurrency with
        | (.error e, w₃) => (.error e, w₃)
        | (.ok currencyToUse, w₃) =>
          dispatchEvaluation cattleInfo feedEvaluation countryIdToUse currencyToUse userIdToUse now w₃

/-! ### Helper lemmas about the transport layer -/

/-- A fetch never mutates the client fields. -/
theorem fetchStep_cs (req : Request) (w : World) : ((fetchStep req w).2).cs = w.cs := by
  rcases w with ⟨cs, script, t⟩
  rcases script with _ | ⟨_ | _, rest⟩ <;> rfl

/-- A fetch appends exactly its request to the trace. -/
theorem fetchStep_trace (req : Request) (w : World) :
    ((fetchStep req w).2).trace = w.trace ++ [req] := by
  rcases w with ⟨cs, script, t⟩
  rcases script with _ | ⟨_ | _, rest⟩ <;> rfl

/-- Operation `getFeedById` ends in the world produced by its single fetch. -/
theorem getFeedById_world (fid : String) (w : World) :
    (getFeedById fid w).2 = (fetchStep (.getFeed fid) w).2 := by
  unfold getFeedById
  rcases h : fetchStep (.getFeed fid) w with ⟨e | r, w'⟩
  · simp
  · by_cases hok : r.ok <;> simp [hok]

/-- Operation `detectCountryFromFeeds` on a non-empty list ends in the world produced by
fetching the first feed. -/
theorem detectCountry_cons_world (fid : String) (rest : List String) (w : World) :
    (detectCountryFromFeeds (fid :: rest) w).2 = (fetchStep (.getFeed fid) w).2 := by
  have hw := getFeedById_world fid w
  simp only [detectCountryFromFeeds]
  rcases h : getFeedById fid w with ⟨e | feed, w'⟩ <;> rw [h] at hw <;> simpa using hw

/-- Operation `dispatchEvaluation` ends in the world produced by its single fetch. -/
theorem dispatchEvaluation_world (c : CattleInfo) (fe : List FeedEvaluationItem)
    (cid cur uid : Json) (now : Nat) (w : World) :
    (dispatchEvaluation c fe cid cur uid now w).2 =
      (fetchStep (.dietEvaluation
        { simulation_id := "eval-" ++ toString now, user_id := uid, country_id := cid,
          currency := cur, cattle_info := c, feed_evaluation := fe }) w).2 := by
  simp only [dispatchEvaluation]
  rcases h : fetchStep (.dietEvaluation
      { simulation_id := "eval-" ++ toString now, user_id := uid, country_id := cid,
        currency := cur, cattle_info := c, feed_evaluation := fe }) w with ⟨e | r, w'⟩
  · rfl
  · by_cases hok : r.ok <;> simp [hok]

/-- Operation `dispatchRecommendation` ends in the world produced by its single fetch. -/
theorem dispatchRecommendation_world (c : CattleInfo) (sel : List FeedWithPrice)
    (cid uid : Json) (now : Nat) (w : World) :
    (dispatchRecommendation c sel cid uid now w).2 =
      (fetchStep (.dietRecommendation
        { simulation_id := "sim-" ++ toString now, user_id := uid, cattle_info := c,
          feed_selection := sel, country_id := cid }) w).2 := by
  simp only [dispatchRecommendation]
  rcases h : fetchStep (.dietRecommendation
      { simulation_id := "sim-" ++ toString now, user_id := uid, cattle_info := c,
        feed_selection := sel, country_id := cid }) w with ⟨e | r, w'⟩
  · rfl
  · by_cases hok : r.ok <;> simp [hok]

/-- An array never passes the object-key test. -/
theorem jsHasKey_of_isArr (v : Json) (k : String) (h : v.isArr = true) :
    jsHasKey v k = false := by
  cases v <;> simp_all [Json.isArr, jsHasKey]

/-- Concrete cattle data used by witnesses and counterexamples. -/
def sampleCattle : CattleInfo :=
  { body_weight := 600, breed := "Holstein", lactating := true, milk_production := 25,
    days_in_milk := 100, parity := 2, days_of_pregnancy := 0, tp_milk := 16/5,
    fat_milk := 19/5, temperature := 20, topography := "Flat", distance := 1,
    calving_interval := 370 }

/-! ### Claim theorems -/

/-- C2: constructing with neither an API key nor a complete email+PIN pair
fails with the `MissingCredentials` error; constructing with both a (non-empty)
API key and a (non-empty) email+PIN pair selects ApiKey mode — the key is
stored, the email and PIN are dropped (exactly one mode populated) — and the
identity accessors `getUserId`/`getCountryId` then reject immediately (with
the unsupported-operation messages, leaving the world untouched, so no login
is attempted). -/
theorem claim_C2 (baseUrl : String) (apiKey userEmail userPin : Option String) :
    (optStrTruthy apiKey = false → (optStrTruthy userEmail = false ∨ optStrTruthy userPin = false) →
      mkClient baseUrl apiKey userEmail userPin = .error missingCredentialsMsg) ∧
    (optStrTruthy apiKey = true → optStrTruthy userEmail = true → optStrTruthy userPin = true →
      mkClient baseUrl apiKey userEmail userPin =
        .ok ⟨baseUrl, apiKey, none, none, .null, .null, .null⟩ ∧
      ∀ script trace,
        getUserId ⟨⟨baseUrl, apiKey, none, none, .null, .null, .null⟩, script, trace⟩ =
          (.error "User ID not available with API key authentication. Use organization context instead.",
            ⟨⟨baseUrl, apiKey, none, none, .null, .null, .null⟩, script, trace⟩) ∧
        getCountryId ⟨⟨baseUrl, apiKey, none, none, .null, .null, .null⟩, script, trace⟩ =
          (.error "Country ID not available with API key authentication. Specify country_id in requests.",
            ⟨⟨baseUrl, apiKey, none, none, .null, .null, .null⟩, script, trace⟩)) := by
  constructor
  · intro hk hep
    rcases hep with h | h <;> simp [mkClient, hk, h]
  · intro hk he hp
    refine ⟨by simp [mkClient, hk], fun script trace => ⟨?_, ?_⟩⟩ <;>
      simp [getUserId, getCountryId, hk]

/-- C2 witness: the theorem applied at concrete credentials. -/
theorem claim_C2_witness :
    (mkClient "http://b" none (some "e") none = .error missingCredentialsMsg) ∧
    (mkClient "http://b" (some "k") (some "e") (some "p") =
      .ok ⟨"http://b", some "k", none, none, .null, .null, .null⟩) := by
  refine ⟨(claim_C2 "http://b" none (some "e") none).1 (by decide) (Or.inr (by decide)), ?_⟩
  exact ((claim_C2 "http://b" (some "k") (some "e") (some "p")).2
    (by decide) (by decide) (by decide)).1

/-- C10: an empty-string API key counts as absent — with no email+PIN it
yields the `MissingCredentials` error, and together with a non-empty email
and PIN it selects EmailPin mode (the stored API key is null); likewise an
empty-string email or PIN counts as absent. -/
theorem claim_C10 (baseUrl : String) (e p : String) (he : e ≠ "") (hp : p ≠ "") :
    mkClient baseUrl (some "") none none = .error missingCredentialsMsg ∧
    mkClient baseUrl (some "") (some e) (some p) =
      .ok ⟨baseUrl, none, some e, some p, .null, .null, .null⟩ ∧
    mkClient baseUrl none (some "") (some p) = .error missingCredentialsMsg ∧
    mkClient baseUrl none (some e) (some "") = .error missingCredentialsMsg := by
  refine ⟨by simp [mkClient, optStrTruthy], ?_, by simp [mkClient, optStrTruthy],
    by simp [mkClient, optStrTruthy]⟩
  simp [mkClient, optStrTruthy, he, hp]

/-- C10 witness: the theorem applied at concrete credentials. -/
theorem claim_C10_witness :
    mkClient "http://b" (some "") (some "e") (some "p") =
      .ok ⟨"http://b", none, some "e", some "p", .null, .null, .null⟩ :=
  (claim_C10 "http://b" "e" "p" (by decide) (by decide)).2.1

/-- C7: on an ApiKey-mode client (truthy stored key), `getUserId` and
`getCountryId` fail immediately with the unsupported-operation errors and
`getCurrency` returns "USD", all three leaving the world untouched (no
network call consumed or attempted). -/
theorem claim_C7 (cs : ClientState) (hmode : optStrTruthy cs.apiKey = true)
    (script : List FetchOutcome) (t : List Request) :
    getUserId ⟨cs, script, t⟩ =
      (.error "User ID not available with API key authentication. Use organization context instead.",
        ⟨cs, script, t⟩) ∧
    getCountryId ⟨cs, script, t⟩ =
      (.error "Country ID not available with API key authentication. Specify country_id in requests.",
        ⟨cs, script, t⟩) ∧
    getCurrency ⟨cs, script, t⟩ = (.ok (.str "USD"), ⟨cs, script, t⟩) := by
  refine ⟨?_, ?_, ?_⟩ <;> simp [getUserId, getCountryId, getCurrency, hmode]

/-- C7 witness: the theorem applied at a concrete ApiKey-mode client. -/
theorem claim_C7_witness :
    getCurrency ⟨⟨"http://b", some "k", none, none, .null, .null, .null⟩, [], []⟩ =
      (.ok (.str "USD"), ⟨⟨"http://b", some "k", none, none, .null, .null, .null⟩, [], []⟩) :=
  (claim_C7 ⟨"http://b", some "k", none, none, .null, .null, .null⟩ (by decide) [] []).2.2

/-- String concatenation is associative (helper for substring statements). -/
theorem stringAppendAssoc (a b c : String) : (a ++ b) ++ c = a ++ (b ++ c) := by
  apply String.ext
  simp

/-- C8: on a backend response with a non-success status, `getFeedById` throws
(returns an error, never a value), and the error message contains the word
"feed" and the numeric status code of the response. -/
theorem claim_C8 (feedId : String) (cs : ClientState) (t : List Request)
    (r : Response) (rest : List FetchOutcome) (hok : r.ok = false) :
    ∃ msg, (getFeedById feedId ⟨cs, .success r :: rest, t⟩).1 = .error msg ∧
      (∃ a b, msg = a ++ "feed" ++ b) ∧
      (∃ c, msg = c ++ toString r.status) := by
  refine ⟨"Failed to get feed: " ++ toString r.status, ?_,
    ⟨"Failed to get ", ": " ++ toString r.status, ?_⟩, ⟨"Failed to get feed: ", rfl⟩⟩
  · simp [getFeedById, fetchStep, hok]
  · rw [show ("Failed to get " : String) ++ "feed" = "Failed to get feed" by decide,
      ← stringAppendAssoc]
    rw [show ("Failed to get feed" : String) ++ ": " = "Failed to get feed: " by decide]

/-- C8 witness: the theorem applied at a concrete 404 response. -/
theorem claim_C8_witness :
    (⟨404, "Not Found", .null, ""⟩ : Response).ok = false ∧
    ∃ msg,
      (getFeedById "f1" ⟨⟨"http://b", some "k", none, none, .null, .null, .null⟩,
        [.success ⟨404, "Not Found", .null, ""⟩], []⟩).1 = .error msg ∧
      (∃ a b, msg = a ++ "feed" ++ b) ∧
      (∃ c, msg = c ++ toString (404 : Nat)) :=
  ⟨by decide, claim_C8 "f1" ⟨"http://b", some "k", none, none, .null, .null, .null⟩ []
    ⟨404, "Not Found", .null, ""⟩ [] (by decide)⟩

/-- A concrete ApiKey-mode client state (used by counterexamples/witnesses). -/
def apiKeyClient : ClientState := ⟨"http://b", some "k", none, none, .null, .null, .null⟩

/-- Feed record whose country-reference field is present but empty. -/
def emptyCountryFeedBody : Json := .objCons "fd_country_id" (.str "") .objNil

/-- C4 counterexample: with a successful lookup whose record carries a present
but empty `fd_country_id`, detection yields null although the field is not
absent — refuting "returns the country-reference field of that record, or null if
the field is absent". -/
theorem claim_C4_counterexample :
    jsHasKey emptyCountryFeedBody "fd_country_id" = true ∧
    jsGet emptyCountryFeedBody "fd_country_id" = .str "" ∧
    (detectCountryFromFeeds ["f1"]
      ⟨apiKeyClient, [.success ⟨200, "OK", emptyCountryFeedBody, ""⟩], []⟩).1 = none := by
  decide

/-- C4 (amended): for every client state, detection over an empty feed-id list
returns null immediately with the world untouched (zero network calls); over a
non-empty list it issues exactly one lookup, of the first feed id, and returns
the country-reference field of the record when that field is truthy (present and
non-empty) and null when it is absent, empty, or otherwise falsy; any lookup
failure (rejection or non-success status) yields null rather than an error. -/
theorem claim_C4_amended (w : World) (fid : String) (rest : List String) :
    detectCountryFromFeeds [] w = (none, w) ∧
    (detectCountryFromFeeds (fid :: rest) w).2.trace = w.trace ++ [.getFeed fid] ∧
    (∀ feed w', getFeedById fid w = (.ok feed, w') →
      detectCountryFromFeeds (fid :: rest) w =
        (if jsTruthy (jsGet feed "fd_country_id") then some (jsGet feed "fd_country_id")
          else none, w')) ∧
    (∀ e w', getFeedById fid w = (.error e, w') →
      detectCountryFromFeeds (fid :: rest) w = (none, w')) := by
  refine ⟨rfl, ?_, ?_, ?_⟩
  · rw [detectCountry_cons_world, fetchStep_trace]
  · intro feed w' h
    simp only [detectCountryFromFeeds]
    rw [h]
  · intro e w' h
    simp only [detectCountryFromFeeds]
    rw [h]

/-- C4 witness: the theorem applied at a concrete successful lookup with a
truthy country field, and at a failing (404) lookup. -/
theorem claim_C4_witness :
    detectCountryFromFeeds ["f1"]
        ⟨apiKeyClient, [.success ⟨200, "OK", .objCons "fd_country_id" (.str "ET") .objNil, ""⟩], []⟩ =
      (some (.str "ET"), ⟨apiKeyClient, [], [.getFeed "f1"]⟩) ∧
    detectCountryFromFeeds ["f1"]
        ⟨apiKeyClient, [.success ⟨404, "Not Found", .null, ""⟩], []⟩ =
      (none, ⟨apiKeyClient, [], [.getFeed "f1"]⟩) := by
  constructor
  · have h := (claim_C4_amended
      ⟨apiKeyClient, [.success ⟨200, "OK", .objCons "fd_country_id" (.str "ET") .objNil, ""⟩], []⟩
      "f1" []).2.2.1 (.objCons "fd_country_id" (.str "ET") .objNil)
      ⟨apiKeyClient, [], [.getFeed "f1"]⟩ rfl
    rw [h]
    decide
  · exact (claim_C4_amended
      ⟨apiKeyClient, [.success ⟨404, "Not Found", .null, ""⟩], []⟩
      "f1" []).2.2.2 "Failed to get feed: 404"
      ⟨apiKeyClient, [], [.getFeed "f1"]⟩ rfl

/-- C6: a successful `searchFeeds` yields the same caller-visible list whether
the backend body is an envelope object whose `feeds` field is the array `l`,
or the bare array `l` itself. -/
theorem claim_C6 (p : SearchParams) (cs : ClientState) (t : List Request)
    (l : Json) (hl : l.isArr = true)
    (r₁ r₂ : Response) (rest₁ rest₂ : List FetchOutcome)
    (h₁ok : r₁.ok = true) (h₂ok : r₂.ok = true)
    (hkey : jsHasKey r₁.jsonBody "feeds" = true)
    (hfeeds : jsGet r₁.jsonBody "feeds" = l)
    (h₂body : r₂.jsonBody = l) :
    (searchFeeds p ⟨cs, .success r₁ :: rest₁, t⟩).1 = .ok l ∧
    (searchFeeds p ⟨cs, .success r₂ :: rest₂, t⟩).1 = .ok l := by
  constructor
  · simp [searchFeeds, fetchStep, h₁ok, hkey, hfeeds]
  · simp [searchFeeds, fetchStep, h₂ok, h₂body, jsHasKey_of_isArr l "feeds" hl]

/-- C6 witness: the theorem applied at a concrete envelope response and the
corresponding bare-array response. -/
theorem claim_C6_witness :
    (searchFeeds {} ⟨apiKeyClient,
        [.success ⟨200, "OK",
          .objCons "total" (.num 1) (.objCons "feeds" (.arrCons (.str "a") .arrNil) .objNil),
          ""⟩], []⟩).1 = .ok (.arrCons (.str "a") .arrNil) ∧
    (searchFeeds {} ⟨apiKeyClient,
        [.success ⟨200, "OK", .arrCons (.str "a") .arrNil, ""⟩], []⟩).1 =
      .ok (.arrCons (.str "a") .arrNil) :=
  claim_C6 {} apiKeyClient [] (.arrCons (.str "a") .arrNil) (by decide)
    ⟨200, "OK", .objCons "total" (.num 1) (.objCons "feeds" (.arrCons (.str "a") .arrNil) .objNil), ""⟩
    ⟨200, "OK", .arrCons (.str "a") .arrNil, ""⟩ [] []
    (by decide) (by decide) (by decide) (by decide) (by decide)

/-- Value of `optStrTruthy` at an absent parameter: false. -/
theorem optStrTruthy_none : optStrTruthy none = false := rfl

/-- Value of `jsTruthy` at null: false. -/
theorem jsTruthy_null : jsTruthy .null = false := rfl

/-- C9: whenever `authenticate` fails — rejection, non-success status, or a
success body with a falsy `success` flag or `user` object — none of the three
session-cache fields is written: the client fields after the call equal the
client fields before it (so a later call retries a fresh login instead of
returning stale identity). -/
theorem claim_C9 (w : World) (e : String) (h : (authenticate w).1 = .error e) :
    ((authenticate w).2).cs = w.cs := by
  rcases w with ⟨cs, script, t⟩
  by_cases h1 : jsTruthy cs.cachedUserId = true
  · simp [authenticate, h1] at h
  · by_cases h2 : (optStrTruthy cs.userEmail && optStrTruthy cs.userPin) = true
    · rcases script with _ | ⟨r | m, rest⟩
      · simp [authenticate, fetchStep, h1, h2]
      · by_cases hok : r.ok = true
        · by_cases h3 : (!jsTruthy (jsGet r.jsonBody "success") ||
              !jsTruthy (jsGet r.jsonBody "user")) = true
          · simp [authenticate, fetchStep, h1, h2, hok, h3]
          · simp [authenticate, fetchStep, h1, h2, hok, h3] at h
        · simp [authenticate, fetchStep, h1, h2, hok]
      · simp [authenticate, fetchStep, h1, h2]
    · simp [authenticate, h1, h2]

/-- C9 witness: the theorem applied at a concrete failing (401) login. -/
theorem claim_C9_witness :
    (authenticate ⟨⟨"http://b", none, some "e", some "p", .null, .null, .null⟩,
        [.success ⟨401, "Unauthorized", .null, ""⟩], []⟩).1 =
      .error "Failed to authenticate: Authentication failed: 401 Unauthorized" ∧
    ((authenticate ⟨⟨"http://b", none, some "e", some "p", .null, .null, .null⟩,
        [.success ⟨401, "Unauthorized", .null, ""⟩], []⟩).2).cs =
      ⟨"http://b", none, some "e", some "p", .null, .null, .null⟩ := by
  refine ⟨rfl, ?_⟩
  exact claim_C9 ⟨⟨"http://b", none, some "e", some "p", .null, .null, .null⟩,
    [.success ⟨401, "Unauthorized", .null, ""⟩], []⟩
    "Failed to authenticate: Authentication failed: 401 Unauthorized" rfl

/-- A fresh EmailPin-mode client state. -/
def emailPinClient : ClientState := ⟨"http://b", none, some "e", some "p", .null, .null, .null⟩

/-- A 2xx login body whose `user.id` is the empty string. -/
def emptyIdLoginBody : Json :=
  .objCons "success" (.bool true)
    (.objCons "user" (.objCons "id" (.str "") (.objCons "country_id" (.str "c") .objNil)) .objNil)

/-- C3 counterexample: a successful login whose returned user id is the empty
string populates the cache with a falsy id, so the second `authenticate` call
performs a second login network call — refuting "at most one login network
call per client instance" / "every subsequent call returns the cached user id
with no new network call". -/
theorem claim_C3_counterexample :
    (authenticate ⟨emailPinClient, [.success ⟨200, "OK", emptyIdLoginBody, ""⟩,
        .success ⟨200, "OK", emptyIdLoginBody, ""⟩], []⟩).1 = .ok (.str "") ∧
    ((authenticate ((authenticate ⟨emailPinClient,
        [.success ⟨200, "OK", emptyIdLoginBody, ""⟩,
          .success ⟨200, "OK", emptyIdLoginBody, ""⟩], []⟩).2)).2).trace =
      [.login "e" "p", .login "e" "p"] := by
  exact ⟨rfl, rfl⟩

/-- C3 (amended): on an EmailPin-mode client whose first login response is a
2xx body with truthy `success` flag, truthy `user` object and truthy
(non-empty) `user.id`, the first `authenticate` performs exactly one login
call, populates cached userId, countryId and currency (currency falling back
to "USD" when the backend value is absent or falsy) and returns the user id;
the second call returns the same id with the world unchanged (no new network
call).  (The unamended claim fails when the backend returns an empty-string
user id, which is falsy and defeats the cache check.) -/
theorem claim_C3_amended (b e p : String) (cs : ClientState)
    (hcs : mkClient b none (some e) (some p) = .ok cs)
    (r : Response) (rest : List FetchOutcome) (t : List Request)
    (hok : r.ok = true)
    (hsucc : jsTruthy (jsGet r.jsonBody "success") = true)
    (huser : jsTruthy (jsGet r.jsonBody "user") = true)
    (hid : jsTruthy (jsGet (jsGet r.jsonBody "user") "id") = true) :
    (authenticate ⟨cs, .success r :: rest, t⟩).1 =
      .ok (jsGet (jsGet r.jsonBody "user") "id") ∧
    ((authenticate ⟨cs, .success r :: rest, t⟩).2).trace = t ++ [.login e p] ∧
    ((authenticate ⟨cs, .success r :: rest, t⟩).2).cs.cachedUserId =
      jsGet (jsGet r.jsonBody "user") "id" ∧
    ((authenticate ⟨cs, .success r :: rest, t⟩).2).cs.cachedCountryId =
      jsGet (jsGet r.jsonBody "user") "country_id" ∧
    ((authenticate ⟨cs, .success r :: rest, t⟩).2).cs.cachedCurrency =
      (if jsTruthy (jsGet (jsGet (jsGet r.jsonBody "user") "country") "currency") = true then
        jsGet (jsGet (jsGet r.jsonBody "user") "country") "currency" else .str "USD") ∧
    authenticate ((authenticate ⟨cs, .success r :: rest, t⟩).2) =
      (.ok (jsGet (jsGet r.jsonBody "user") "id"),
        (authenticate ⟨cs, .success r :: rest, t⟩).2) := by
  have hbase : cs = ⟨b, none, some e, some p, .null, .null, .null⟩ ∧
      optStrTruthy (some e) = true ∧ optStrTruthy (some p) = true := by
    by_cases he : optStrTruthy (some e) = true
    · by_cases hp : optStrTruthy (some p) = true
      · refine ⟨?_, he, hp⟩
        simp [mkClient, optStrTruthy_none, he, hp] at hcs
        exact hcs.symm
      · simp [mkClient, optStrTruthy_none, he, hp] at hcs
    · simp [mkClient, optStrTruthy_none, he] at hcs
  obtain ⟨hcseq, he, hp⟩ := hbase
  subst hcseq
  refine ⟨?_, ?_, ?_, ?_, ?_, ?_⟩ <;>
    simp [authenticate, fetchStep, he, hp, hok, hsucc, huser, hid, jsTruthy_null]

/-- A well-formed 2xx login body (non-empty user id, country with currency). -/
def goodLoginBody : Json :=
  .objCons "success" (.bool true)
    (.objCons "user"
      (.objCons "id" (.str "u1")
        (.objCons "country_id" (.str "c1")
          (.objCons "country" (.objCons "currency" (.str "ETB") .objNil) .objNil)))
      .objNil)

/-- C3 witness: the amended theorem applied at a concrete successful login. -/
theorem claim_C3_witness :
    (authenticate ⟨emailPinClient, [.success ⟨200, "OK", goodLoginBody, ""⟩], []⟩).1 =
      .ok (jsGet (jsGet goodLoginBody "user") "id") ∧
    authenticate ((authenticate ⟨emailPinClient,
        [.success ⟨200, "OK", goodLoginBody, ""⟩], []⟩).2) =
      (.ok (jsGet (jsGet goodLoginBody "user") "id"),
        (authenticate ⟨emailPinClient, [.success ⟨200, "OK", goodLoginBody, ""⟩], []⟩).2) := by
  have h := claim_C3_amended "http://b" "e" "p" emailPinClient rfl
    ⟨200, "OK", goodLoginBody, ""⟩ [] [] (by decide) (by decide) (by decide) (by decide)
  exact ⟨h.1, h.2.2.2.2.2⟩

/-- C1: on an ApiKey-mode client, `evaluateDiet` with a non-empty feed list
and no explicit country id first fetches the record of the first feed id; when the
lookup succeeds with a truthy country field, exactly one further call is
dispatched, to the evaluation endpoint — two outbound calls total, in that
order — whose body embeds the detected country id and the simulation id
`eval-<now>`; when detection yields no country id, the call fails with the
missing-country error and the trace shows no dispatch to the evaluation
endpoint. -/
theorem claim_C1 (cs : ClientState) (hmode : optStrTruthy cs.apiKey = true)
    (cattle : CattleInfo) (f : FeedEvaluationItem) (fs : List FeedEvaluationItem)
    (currency userId : Option String) (now : Nat) (script : List FetchOutcome) :
    (∀ r rest, script = .success r :: rest → r.ok = true →
      jsTruthy (jsGet r.jsonBody "fd_country_id") = true →
      ∃ req : DietEvaluationRequest,
        ((evaluateDiet cattle (f :: fs) none currency userId now ⟨cs, script, []⟩).2).trace =
          [.getFeed f.feed_id, .dietEvaluation req] ∧
        req.country_id = jsGet r.jsonBody "fd_country_id" ∧
        req.simulation_id = "eval-" ++ toString now) ∧
    ((detectCountryFromFeeds (f.feed_id :: fs.map (·.feed_id)) ⟨cs, script, []⟩).1 = none →
      (evaluateDiet cattle (f :: fs) none currency userId now ⟨cs, script, []⟩).1 =
        .error missingCountryMsg ∧
      ((evaluateDiet cattle (f :: fs) none currency userId now ⟨cs, script, []⟩).2).trace =
        [.getFeed f.feed_id]) := by
  constructor
  · intro r rest hs hok hc
    subst hs
    have hred : evaluateDiet cattle (f :: fs) none currency userId now
        ⟨cs, .success r :: rest, []⟩ =
      dispatchEvaluation cattle (f :: fs) (jsGet r.jsonBody "fd_country_id")
        (if optStrTruthy currency = true then .str (currency.getD "") else .str "USD")
        (if optStrTruthy userId = true then .str (userId.getD "") else .str serviceAccountId)
        now ⟨cs, rest, [.getFeed f.feed_id]⟩ := by
      simp [evaluateDiet, detectCountryFromFeeds, getFeedById, fetchStep, hmode, hok, hc,
        optStrTruthy_none]
    refine ⟨⟨"eval-" ++ toString now,
      (if optStrTruthy userId = true then .str (userId.getD "") else .str serviceAccountId),
      jsGet r.jsonBody "fd_country_id",
      (if optStrTruthy currency = true then .str (currency.getD "") else .str "USD"),
      cattle, f :: fs⟩, ?_, rfl, rfl⟩
    rw [hred, dispatchEvaluation_world, fetchStep_trace]
    rfl
  · intro hd
    rcases hdet : detectCountryFromFeeds (f.feed_id :: fs.map (·.feed_id))
        ⟨cs, script, []⟩ with ⟨o, w'⟩
    rw [hdet] at hd
    simp only at hd
    subst hd
    have hw' : w'.trace = [.getFeed f.feed_id] := by
      have h2 := detectCountry_cons_world f.feed_id (fs.map (·.feed_id)) ⟨cs, script, []⟩
      rw [hdet] at h2
      simp only at h2
      rw [h2, fetchStep_trace]
      rfl
    have hred : evaluateDiet cattle (f :: fs) none currency userId now ⟨cs, script, []⟩ =
        (.error missingCountryMsg, w') := by
      simp only [evaluateDiet, hmode, optStrTruthy_none, List.map_cons]
      simp only [Bool.not_false, if_true]
      rw [hdet]
    rw [hred]
    exact ⟨rfl, hw'⟩

/-- C1 witness: the theorem applied at a concrete two-response script
(successful detection) and at a concrete failing-detection script. -/
theorem claim_C1_witness :
    (∃ req : DietEvaluationRequest,
      ((evaluateDiet sampleCattle [⟨"f1", 10, 5/2⟩] none none none 42
        ⟨apiKeyClient,
          [.success ⟨200, "OK", .objCons "fd_country_id" (.str "ET") .objNil, ""⟩,
            .success ⟨200, "OK", .objNil, ""⟩], []⟩).2).trace =
        [.getFeed "f1", .dietEvaluation req] ∧
      req.country_id = jsGet (.objCons "fd_country_id" (.str "ET") .objNil) "fd_country_id" ∧
      req.simulation_id = "eval-" ++ toString (42 : Nat)) ∧
    (evaluateDiet sampleCattle [⟨"f1", 10, 5/2⟩] none none none 42
        ⟨apiKeyClient, [.success ⟨404, "Not Found", .null, ""⟩], []⟩).1 =
      .error missingCountryMsg := by
  constructor
  · exact (claim_C1 apiKeyClient (by decide) sampleCattle ⟨"f1", 10, 5/2⟩ [] none none 42
      [.success ⟨200, "OK", .objCons "fd_country_id" (.str "ET") .objNil, ""⟩,
        .success ⟨200, "OK", .objNil, ""⟩]).1
      ⟨200, "OK", .objCons "fd_country_id" (.str "ET") .objNil, ""⟩
      [.success ⟨200, "OK", .objNil, ""⟩] rfl (by decide) (by decide)
  · exact ((claim_C1 apiKeyClient (by decide) sampleCattle ⟨"f1", 10, 5/2⟩ [] none none 42
      [.success ⟨404, "Not Found", .null, ""⟩]).2 rfl).1

/-- A Boolean that is not true is false. -/
theorem boolFalse {b : Bool} (h : ¬ b = true) : b = false := by
  cases b
  · rfl
  · exact absurd rfl h

/-- The trace after `authenticate` is the old trace, possibly extended by one
login request. -/
theorem authenticate_trace (w : World) :
    ((authenticate w).2).trace = w.trace ∨
    ((authenticate w).2).trace =
      w.trace ++ [.login (w.cs.userEmail.getD "") (w.cs.userPin.getD "")] := by
  rcases w with ⟨cs, script, t⟩
  by_cases h1 : jsTruthy cs.cachedUserId = true
  · left
    simp [authenticate, h1]
  · by_cases h2 : (optStrTruthy cs.userEmail && optStrTruthy cs.userPin) = true
    · rcases script with _ | ⟨r | m, rest⟩
      · right
        simp [authenticate, fetchStep, h1, h2]
      · by_cases hok : r.ok = true
        · by_cases h3 : (!jsTruthy (jsGet r.jsonBody "success") ||
              !jsTruthy (jsGet r.jsonBody "user")) = true
          · right
            simp [authenticate, fetchStep, h1, h2, hok, h3]
          · right
            simp [authenticate, fetchStep, h1, h2, hok, h3]
        · right
          simp [authenticate, fetchStep, h1, h2, hok]
      · right
        simp [authenticate, fetchStep, h1, h2]
    · left
      simp [authenticate, h1, h2]

/-- A trace free of diet dispatches stays free of them across `authenticate`. -/
theorem authenticate_noDiet (w : World)
    (hw : ∀ r ∈ w.trace, r.isDietDispatch = false) :
    ∀ r ∈ ((authenticate w).2).trace, r.isDietDispatch = false := by
  intro r hr
  rcases authenticate_trace w with h | h <;> rw [h] at hr
  · exact hw r hr
  · rcases List.mem_append.mp hr with h' | h'
    · exact hw r h'
    · rw [List.mem_singleton.mp h']
      rfl

/-- The world after `getCountryId` is the input world or the world after
`authenticate`. -/
theorem getCountryId_world (w : World) :
    (getCountryId w).2 = w ∨ (getCountryId w).2 = (authenticate w).2 := by
  by_cases hk : optStrTruthy w.cs.apiKey = true
  · left
    simp [getCountryId, hk]
  · right
    simp only [getCountryId, boolFalse hk, Bool.false_eq_true, if_false]
    rcases h : authenticate w with ⟨e | u, w'⟩
    · rfl
    · by_cases hc : (!jsTruthy w'.cs.cachedCountryId) = true <;> simp [hc]

/-- The world after `getCurrency` is the input world or the world after
`authenticate`. -/
theorem getCurrency_world (w : World) :
    (getCurrency w).2 = w ∨ (getCurrency w).2 = (authenticate w).2 := by
  by_cases hk : optStrTruthy w.cs.apiKey = true
  · left
    simp [getCurrency, hk]
  · right
    simp only [getCurrency, boolFalse hk, Bool.false_eq_true, if_false]
    rcases h : authenticate w with ⟨e | u, w'⟩ <;> rfl

/-- A trace free of diet dispatches stays free of them across `getCountryId`. -/
theorem getCountryId_noDiet (w : World)
    (hw : ∀ r ∈ w.trace, r.isDietDispatch = false) :
    ∀ r ∈ ((getCountryId w).2).trace, r.isDietDispatch = false := by
  rcases getCountryId_world w with h | h <;> rw [h]
  · exact hw
  · exact authenticate_noDiet w hw

/-- A trace free of diet dispatches stays free of them across `getCurrency`. -/
theorem getCurrency_noDiet (w : World)
    (hw : ∀ r ∈ w.trace, r.isDietDispatch = false) :
    ∀ r ∈ ((getCurrency w).2).trace, r.isDietDispatch = false := by
  rcases getCurrency_world w with h | h <;> rw [h]
  · exact hw
  · exact authenticate_noDiet w hw

/-- A trace free of diet dispatches stays free of them across country
detection. -/
theorem detectCountry_noDiet (ids : List String) (w : World)
    (hw : ∀ r ∈ w.trace, r.isDietDispatch = false) :
    ∀ r ∈ ((detectCountryFromFeeds ids w).2).trace, r.isDietDispatch = false := by
  rcases ids with _ | ⟨fid, rest⟩
  · exact hw
  · intro r hr
    rw [detectCountry_cons_world, fetchStep_trace] at hr
    rcases List.mem_append.mp hr with h' | h'
    · exact hw r h'
    · rw [List.mem_singleton.mp h']
      rfl

/-- Any diet-recommendation request found in the trace after a recommendation
dispatch over a dispatch-free trace carries the user id the dispatch was
invoked with. -/
theorem dispatchRecommendation_userId (c : CattleInfo) (sel : List FeedWithPrice)
    (cid uid : Json) (now : Nat) (w : World) (req : DietRecommendationRequest)
    (hw : ∀ r ∈ w.trace, r.isDietDispatch = false)
    (hmem : Request.dietRecommendation req ∈
      ((dispatchRecommendation c sel cid uid now w).2).trace) :
    req.user_id = uid := by
  rw [dispatchRecommendation_world, fetchStep_trace] at hmem
  rcases List.mem_append.mp hmem with h | h
  · have hx := hw _ h
    simp [Request.isDietDispatch] at hx
  · have h' := List.mem_singleton.mp h
    injection h' with h''
    rw [h'']

/-- Any diet-evaluation request found in the trace after an evaluation
dispatch over a dispatch-free trace carries the user id the dispatch was
invoked with. -/
theorem dispatchEvaluation_userId (c : CattleInfo) (fe : List FeedEvaluationItem)
    (cid cur uid : Json) (now : Nat) (w : World) (req : DietEvaluationRequest)
    (hw : ∀ r ∈ w.trace, r.isDietDispatch = false)
    (hmem : Request.dietEvaluation req ∈
      ((dispatchEvaluation c fe cid cur uid now w).2).trace) :
    req.user_id = uid := by
  rw [dispatchEvaluation_world, fetchStep_trace] at hmem
  rcases List.mem_append.mp hmem with h | h
  · have hx := hw _ h
    simp [Request.isDietDispatch] at hx
  · have h' := List.mem_singleton.mp h
    injection h' with h''
    rw [h'']

/-- C5 counterexample: in ApiKey mode an explicitly given empty-string
`userId` argument is not placed in the dispatched request — the falsy check
`userId || serviceAccount` substitutes the service-account id — refuting "it
equals the explicit userId argument when given". -/
theorem claim_C5_counterexample :
    ((evaluateDiet sampleCattle [⟨"f1", 10, 5/2⟩] (some "c") none (some "") 5
        ⟨apiKeyClient, [.success ⟨200, "OK", .objNil, ""⟩], []⟩).2).trace =
      [.dietEvaluation ⟨"eval-5", .str serviceAccountId, .str "c", .str "USD",
        sampleCattle, [⟨"f1", 10, 5/2⟩]⟩] ∧
    (Json.str serviceAccountId) ≠ .str "" := by
  exact ⟨rfl, by decide⟩

/-- C5 (amended): for both `getDietRecommendation` and `evaluateDiet`, every
diet request dispatched during the call (every diet-endpoint entry of the
resulting trace, starting from an empty trace) carries the resolved user id:
in ApiKey mode it is the explicit `userId` argument when given and non-empty
and otherwise the zero-valued service-account identifier, over every country
resolution path (explicit argument or auto-detection); in EmailPin mode the
result is independent of the `userId` argument (it is never used), and
whenever authentication succeeds every dispatched diet request carries the
authenticated user id, over every country/currency resolution path (explicit
argument or cached value). -/
theorem claim_C5_amended (cs : ClientState) (cattle : CattleInfo)
    (sel : List FeedWithPrice) (fe : List FeedEvaluationItem)
    (countryId currency userId : Option String) (now : Nat)
    (script : List FetchOutcome) :
    (optStrTruthy cs.apiKey = true →
      (∀ req : DietRecommendationRequest,
        Request.dietRecommendation req ∈
          ((getDietRecommendation cattle sel countryId userId now ⟨cs, script, []⟩).2).trace →
        req.user_id = (if optStrTruthy userId = true then .str (userId.getD "")
          else .str serviceAccountId)) ∧
      (∀ req : DietEvaluationRequest,
        Request.dietEvaluation req ∈
          ((evaluateDiet cattle fe countryId currency userId now ⟨cs, script, []⟩).2).trace →
        req.user_id = (if optStrTruthy userId = true then .str (userId.getD "")
          else .str serviceAccountId))) ∧
    (optStrTruthy cs.apiKey = false → ∀ userId' : Option String, ∀ t : List Request,
      getDietRecommendation cattle sel countryId userId now ⟨cs, script, t⟩ =
        getDietRecommendation cattle sel countryId userId' now ⟨cs, script, t⟩ ∧
      evaluateDiet cattle fe countryId currency userId now ⟨cs, script, t⟩ =
        evaluateDiet cattle fe countryId currency userId' now ⟨cs, script, t⟩) ∧
    (optStrTruthy cs.apiKey = false →
      ∀ u w₁, authenticate ⟨cs, script, []⟩ = (.ok u, w₁) →
      (∀ req : DietRecommendationRequest,
        Request.dietRecommendation req ∈
          ((getDietRecommendation cattle sel countryId userId now ⟨cs, script, []⟩).2).trace →
        req.user_id = u) ∧
      (∀ req : DietEvaluationRequest,
        Request.dietEvaluation req ∈
          ((evaluateDiet cattle fe countryId currency userId now ⟨cs, script, []⟩).2).trace →
        req.user_id = u)) := by
  have hstart : ∀ r ∈ ([] : List Request), r.isDietDispatch = false := by
    intro r hr
    exact absurd hr (List.not_mem_nil r)
  refine ⟨?_, ?_, ?_⟩
  · intro hmode
    constructor
    · intro req hmem
      by_cases hcid : optStrTruthy countryId = true
      · have hred : getDietRecommendation cattle sel countryId userId now ⟨cs, script, []⟩ =
            dispatchRecommendation cattle sel (.str (countryId.getD ""))
              (if optStrTruthy userId = true then .str (userId.getD "")
                else .str serviceAccountId) now ⟨cs, script, []⟩ := by
          simp [getDietRecommendation, hmode, hcid]
        rw [hred] at hmem
        exact dispatchRecommendation_userId _ _ _ _ _ _ req hstart hmem
      · rcases hdet : detectCountryFromFeeds (List.map (fun f => f.feed_id) sel)
            ⟨cs, script, []⟩ with ⟨o, w'⟩
        have hnd : ∀ r ∈ w'.trace, r.isDietDispatch = false := by
          have h := detectCountry_noDiet (List.map (fun f => f.feed_id) sel)
            ⟨cs, script, []⟩ hstart
          rw [hdet] at h
          exact h
        rcases o with _ | c
        · have hred : getDietRecommendation cattle sel countryId userId now ⟨cs, script, []⟩ =
              (.error missingCountryMsg, w') := by
            simp only [getDietRecommendation, hmode, boolFalse hcid, Bool.not_false, if_true]
            rw [hdet]
          rw [hred] at hmem
          have hx := hnd _ hmem
          simp [Request.isDietDispatch] at hx
        · have hred : getDietRecommendation cattle sel countryId userId now ⟨cs, script, []⟩ =
              dispatchRecommendation cattle sel c
                (if optStrTruthy userId = true then .str (userId.getD "")
                  else .str serviceAccountId) now w' := by
            simp only [getDietRecommendation, hmode, boolFalse hcid, Bool.not_false, if_true]
            rw [hdet]
          rw [hred] at hmem
          exact dispatchRecommendation_userId _ _ _ _ _ _ req hnd hmem
    · intro req hmem
      by_cases hcid : optStrTruthy countryId = true
      · have hred : evaluateDiet cattle fe countryId currency userId now ⟨cs, script, []⟩ =
            dispatchEvaluation cattle fe (.str (countryId.getD ""))
              (if optStrTruthy currency = true then .str (currency.getD "") else .str "USD")
              (if optStrTruthy userId = true then .str (userId.getD "")
                else .str serviceAccountId) now ⟨cs, script, []⟩ := by
          simp [evaluateDiet, hmode, hcid]
        rw [hred] at hmem
        exact dispatchEvaluation_userId _ _ _ _ _ _ _ req hstart hmem
      · rcases hdet : detectCountryFromFeeds (List.map (fun f => f.feed_id) fe)
            ⟨cs, script, []⟩ with ⟨o, w'⟩
        have hnd : ∀ r ∈ w'.trace, r.isDietDispatch = false := by
          have h := detectCountry_noDiet (List.map (fun f => f.feed_id) fe)
            ⟨cs, script, []⟩ hstart
          rw [hdet] at h
          exact h
        rcases o with _ | c
        · have hred : evaluateDiet cattle fe countryId currency userId now ⟨cs, script, []⟩ =
              (.error missingCountryMsg, w') := by
            simp only [evaluateDiet, hmode, boolFalse hcid, Bool.not_false, if_true]
            rw [hdet]
          rw [hred] at hmem
          have hx := hnd _ hmem
          simp [Request.isDietDispatch] at hx
        · have hred : evaluateDiet cattle fe countryId currency userId now ⟨cs, script, []⟩ =
              dispatchEvaluation cattle fe c
                (if optStrTruthy currency = true then .str (currency.getD "") else .str "USD")
                (if optStrTruthy userId = true then .str (userId.getD "")
                  else .str serviceAccountId) now w' := by
            simp only [evaluateDiet, hmode, boolFalse hcid, Bool.not_false, if_true]
            rw [hdet]
          rw [hred] at hmem
          exact dispatchEvaluation_userId _ _ _ _ _ _ _ req hnd hmem
  · intro hmode userId' t
    constructor
    · simp only [getDietRecommendation, hmode]
      rfl
    · simp only [evaluateDiet, hmode]
      rfl
  · intro hmode u w₁ hauth
    have hnd₁ : ∀ r ∈ w₁.trace, r.isDietDispatch = false := by
      have h := authenticate_noDiet ⟨cs, script, []⟩ hstart
      rw [hauth] at h
      exact h
    have hred0R : getDietRecommendation cattle sel countryId userId now ⟨cs, script, []⟩ =
        (match (if optStrTruthy countryId = true then
            ((.ok (.str (countryId.getD "")) : Except String Json), w₁)
          else getCountryId w₁) with
        | (.error e, w₂) => (.error e, w₂)
        | (.ok cid, w₂) => dispatchRecommendation cattle sel cid u now w₂) := by
      simp only [getDietRecommendation, getUserId, hmode, Bool.false_eq_true, if_false]
      rw [hauth]
    have hred0E : evaluateDiet cattle fe countryId currency userId now ⟨cs, script, []⟩ =
        (match (if optStrTruthy countryId = true then
            ((.ok (.str (countryId.getD "")) : Except String Json), w₁)
          else getCountryId w₁) with
        | (.error e, w₂) => (.error e, w₂)
        | (.ok cid, w₂) =>
          match (if optStrTruthy currency = true then
              ((.ok (.str (currency.getD "")) : Except String Json), w₂)
            else getCurrency w₂) with
          | (.error e, w₃) => (.error e, w₃)
          | (.ok cur, w₃) => dispatchEvaluation cattle fe cid cur u now w₃) := by
      simp only [evaluateDiet, getUserId, hmode, Bool.false_eq_true, if_false]
      rw [hauth]
    constructor
    · intro req hmem
      rw [hred0R] at hmem
      by_cases hcid : optStrTruthy countryId = true
      · simp only [hcid, if_true] at hmem
        exact dispatchRecommendation_userId _ _ _ _ _ _ req hnd₁ hmem
      · simp only [boolFalse hcid, Bool.false_eq_true, if_false] at hmem
        rcases hc : getCountryId w₁ with ⟨ec | cid, w₂⟩ <;> rw [hc] at hmem
        · have hnd₂ : ∀ r ∈ w₂.trace, r.isDietDispatch = false := by
            have h := getCountryId_noDiet w₁ hnd₁
            rw [hc] at h
            exact h
          have hx := hnd₂ _ hmem
          simp [Request.isDietDispatch] at hx
        · have hnd₂ : ∀ r ∈ w₂.trace, r.isDietDispatch = false := by
            have h := getCountryId_noDiet w₁ hnd₁
            rw [hc] at h
            exact h
          exact dispatchRecommendation_userId _ _ _ _ _ _ req hnd₂ hmem
    · intro req hmem
      rw [hred0E] at hmem
      by_cases hcid : optStrTruthy countryId = true
      · simp only [hcid, if_true] at hmem
        by_cases hcur : optStrTruthy currency = true
        · simp only [hcur, if_true] at hmem
          exact dispatchEvaluation_userId _ _ _ _ _ _ _ req hnd₁ hmem
        · simp only [boolFalse hcur, Bool.false_eq_true, if_false] at hmem
          rcases hcu : getCurrency w₁ with ⟨ec | cur, w₂⟩ <;> rw [hcu] at hmem
          · have hnd₂ : ∀ r ∈ w₂.trace, r.isDietDispatch = false := by
              have h := getCurrency_noDiet w₁ hnd₁
              rw [hcu] at h
              exact h
            have hx := hnd₂ _ hmem
            simp [Request.isDietDispatch] at hx
          · have hnd₂ : ∀ r ∈ w₂.trace, r.isDietDispatch = false := by
              have h := getCurrency_noDiet w₁ hnd₁
              rw [hcu] at h
              exact h
            exact dispatchEvaluation_userId _ _ _ _ _ _ _ req hnd₂ hmem
      · simp only [boolFalse hcid, Bool.false_eq_true, if_false] at hmem
        rcases hc : getCountryId w₁ with ⟨ec | cid, w₂⟩ <;> rw [hc] at hmem
        · have hnd₂ : ∀ r ∈ w₂.trace, r.isDietDispatch = false := by
            have h := getCountryId_noDiet w₁ hnd₁
            rw [hc] at h
            exact h
          have hx := hnd₂ _ hmem
          simp [Request.isDietDispatch] at hx
        · have hnd₂ : ∀ r ∈ w₂.trace, r.isDietDispatch = false := by
            have h := getCountryId_noDiet w₁ hnd₁
            rw [hc] at h
            exact h
          by_cases hcur : optStrTruthy currency = true
          · simp only [hcur, if_true] at hmem
            exact dispatchEvaluation_userId _ _ _ _ _ _ _ req hnd₂ hmem
          · simp only [boolFalse hcur, Bool.false_eq_true, if_false] at hmem
            rcases hcu : getCurrency w₂ with ⟨ec | cur, w₃⟩ <;> rw [hcu] at hmem
            · have hnd₃ : ∀ r ∈ w₃.trace, r.isDietDispatch = false := by
                have h := getCurrency_noDiet w₂ hnd₂
                rw [hcu] at h
                exact h
              have hx := hnd₃ _ hmem
              simp [Request.isDietDispatch] at hx
            · have hnd₃ : ∀ r ∈ w₃.trace, r.isDietDispatch = false := by
                have h := getCurrency_noDiet w₂ hnd₂
                rw [hcu] at h
                exact h
              exact dispatchEvaluation_userId _ _ _ _ _ _ _ req hnd₃ hmem

/-- C5 witness: the amended theorem applied at a concrete ApiKey-mode client
whose country id is auto-detected (dispatched user id is the service-account
id) and at a concrete EmailPin-mode client dispatching with cached country and
currency (dispatched user id is the authenticated one). -/
theorem claim_C5_witness :
    (Request.dietEvaluation ⟨"eval-7", .str serviceAccountId, .str "ET", .str "USD",
        sampleCattle, [⟨"f1", 10, 5/2⟩]⟩ ∈
      ((evaluateDiet sampleCattle [⟨"f1", 10, 5/2⟩] none none none 7
        ⟨apiKeyClient,
          [.success ⟨200, "OK", .objCons "fd_country_id" (.str "ET") .objNil, ""⟩,
            .success ⟨200, "OK", .objNil, ""⟩], []⟩).2).trace) ∧
    (⟨"eval-7", .str serviceAccountId, .str "ET", .str "USD", sampleCattle,
      [⟨"f1", 10, 5/2⟩]⟩ : DietEvaluationRequest).user_id = .str serviceAccountId ∧
    (Request.dietEvaluation ⟨"eval-7", .str "u1", .str "c1", .str "ETB",
        sampleCattle, [⟨"f1", 10, 5/2⟩]⟩ ∈
      ((evaluateDiet sampleCattle [⟨"f1", 10, 5/2⟩] none none none 7
        ⟨emailPinClient,
          [.success ⟨200, "OK", goodLoginBody, ""⟩,
            .success ⟨200, "OK", .objNil, ""⟩], []⟩).2).trace) ∧
    (⟨"eval-7", .str "u1", .str "c1", .str "ETB", sampleCattle,
      [⟨"f1", 10, 5/2⟩]⟩ : DietEvaluationRequest).user_id = .str "u1" := by
  have htrA : ((evaluateDiet sampleCattle [⟨"f1", 10, 5/2⟩] none none none 7
        ⟨apiKeyClient,
          [.success ⟨200, "OK", .objCons "fd_country_id" (.str "ET") .objNil, ""⟩,
            .success ⟨200, "OK", .objNil, ""⟩], []⟩).2).trace =
      [.getFeed "f1", .dietEvaluation ⟨"eval-7", .str serviceAccountId, .str "ET",
        .str "USD", sampleCattle, [⟨"f1", 10, 5/2⟩]⟩] := rfl
  have hmemA : Request.dietEvaluation ⟨"eval-7", .str serviceAccountId, .str "ET",
      .str "USD", sampleCattle, [⟨"f1", 10, 5/2⟩]⟩ ∈
      ((evaluateDiet sampleCattle [⟨"f1", 10, 5/2⟩] none none none 7
        ⟨apiKeyClient,
          [.success ⟨200, "OK", .objCons "fd_country_id" (.str "ET") .objNil, ""⟩,
            .success ⟨200, "OK", .objNil, ""⟩], []⟩).2).trace := by
    rw [htrA]
    exact List.mem_cons_of_mem _ (List.mem_singleton.mpr rfl)
  have htrB : ((evaluateDiet sampleCattle [⟨"f1", 10, 5/2⟩] none none none 7
        ⟨emailPinClient,
          [.success ⟨200, "OK", goodLoginBody, ""⟩,
            .success ⟨200, "OK", .objNil, ""⟩], []⟩).2).trace =
      [.login "e" "p", .dietEvaluation ⟨"eval-7", .str "u1", .str "c1", .str "ETB",
        sampleCattle, [⟨"f1", 10, 5/2⟩]⟩] := rfl
  have hmemB : Request.dietEvaluation ⟨"eval-7", .str "u1", .str "c1", .str "ETB",
      sampleCattle, [⟨"f1", 10, 5/2⟩]⟩ ∈
      ((evaluateDiet sampleCattle [⟨"f1", 10, 5/2⟩] none none none 7
        ⟨emailPinClient,
          [.success ⟨200, "OK", goodLoginBody, ""⟩,
            .success ⟨200, "OK", .objNil, ""⟩], []⟩).2).trace := by
    rw [htrB]
    exact List.mem_cons_of_mem _ (List.mem_singleton.mpr rfl)
  have hA := ((claim_C5_amended apiKeyClient sampleCattle [] [⟨"f1", 10, 5/2⟩]
      none none none 7
      [.success ⟨200, "OK", .objCons "fd_country_id" (.str "ET") .objNil, ""⟩,
        .success ⟨200, "OK", .objNil, ""⟩]).1 (by decide)).2 _ hmemA
  have hB := ((claim_C5_amended emailPinClient sampleCattle [] [⟨"f1", 10, 5/2⟩]
      none none none 7
      [.success ⟨200, "OK", goodLoginBody, ""⟩, .success ⟨200, "OK", .objNil, ""⟩]).2.2
      (by decide) (.str "u1")
      ⟨⟨"http://b", none, some "e", some "p", .str "u1", .str "c1", .str "ETB"⟩,
        [.success ⟨200, "OK", .objNil, ""⟩], [.login "e" "p"]⟩ rfl).2 _ hmemB
  exact ⟨hmemA, hA, hmemB, hB⟩

end RationSmart
